import Mathlib

set_option maxRecDepth 16384
set_option linter.unnecessarySimpa false

/-!
Verification of `viswsl/modules/visual_stream.py`.

The Python module is shallowly embedded: tensors are an abstract type
parameter, `torch.nn` submodules are named functions on tensors, Python
dictionaries (insertion ordered, overwriting) are association lists, and
`str.replace` / the regular-expression search used by
`D2BackboneVisualStream.__init__` are implemented over character lists.
External libraries (`torchvision`, `detectron2`) are black-box collaborators:
their constructors appear as explicit parameters of the embedded
constructors, exactly where the source calls out to them.
-/

/-- Python `str.replace` worker over character lists.  The counter argument
skips the remaining characters of a pattern occurrence that has just been
replaced, so that replacement is non-overlapping and left-to-right, exactly
as in CPython.  Only used with nonempty patterns. -/
def replAux (t r : List Char) : List Char → Nat → List Char
  | [], _ => []
  | _ :: cs, Nat.succ k => replAux t r cs k
  | c :: cs, 0 =>
    if t.isPrefixOf (c :: cs) then r ++ replAux t r cs (t.length - 1)
    else c :: replAux t r cs 0

/-- Python `s.replace(old, new)` on character lists (nonempty `old`). -/
def pyReplace (s t r : List Char) : List Char := replAux t r s 0

/-- Python `s.replace(old, new)` on strings (nonempty `old`). -/
def pyReplaceS (s old new : String) : String :=
  String.mk (replAux old.data new.data s.data 0)

/-- Number of non-overlapping, left-to-right occurrences of `t`, counted with
the same scan as `replAux`. -/
def countOccAux (t : List Char) : List Char → Nat → Nat
  | [], _ => 0
  | _ :: cs, Nat.succ k => countOccAux t cs k
  | c :: cs, 0 =>
    if t.isPrefixOf (c :: cs) then countOccAux t cs (t.length - 1) + 1
    else countOccAux t cs 0

/-- Occurrence count of `t` in `s` (non-overlapping, left-to-right). -/
def countOcc (t s : List Char) : Nat := countOccAux t s 0

/-- Python `s.startswith(p)`. -/
def pyStartsWith (s p : String) : Bool := p.data.isPrefixOf s.data

/-- The substring rename table of
`TorchvisionVisualStream.detectron2_backbone_state_dict`, in source order
(Python dicts iterate in insertion order). -/
def DETECTRON2_RENAME_MAPPING : List (String × String) :=
  [("layer1", "res2"), ("layer2", "res3"), ("layer3", "res4"), ("layer4", "res5"),
   ("bn1", "conv1.norm"), ("bn2", "conv2.norm"), ("bn3", "conv3.norm"),
   ("downsample.0", "shortcut"), ("downsample.1", "shortcut.norm")]

/-- The renaming applied to one parameter name inside
`detectron2_backbone_state_dict`: every table substring is replaced in table
order, then names not starting with `"res"` get the `"stem."` prefix
(`name = f"stem.{name}"`). -/
def renameD2 (name : String) : String :=
  let renamed := DETECTRON2_RENAME_MAPPING.foldl (fun n ov => pyReplaceS n ov.1 ov.2) name
  if pyStartsWith renamed "res" then renamed else "stem." ++ renamed

/-- Python `d[k] = v` on an insertion-ordered association list: an existing
key keeps its position and gets the new value, a new key is appended. -/
def dictInsert (d : List (String × π)) (k : String) (v : π) : List (String × π) :=
  if d.any (fun kv => kv.1 == k) then
    d.map (fun kv => if kv.1 == k then (k, v) else kv)
  else d ++ [(k, v)]

/-- The dictionary returned by `detectron2_backbone_state_dict`. -/
structure D2Checkpoint (π : Type) where
  model : List (String × π)
  author : String
  matching_heuristics : Bool

/-- The `TorchvisionVisualStream.detectron2_backbone_state_dict`, as a function
of `self.cnn.state_dict()` (an insertion-ordered list of name/tensor pairs):
every name is renamed with `renameD2` and inserted into a fresh dict, and the
fixed metadata entries are attached. -/
def detectron2_backbone_state_dict (sd : List (String × π)) : D2Checkpoint π :=
  { model := sd.foldl (fun d nv => dictInsert d (renameD2 nv.1) nv.2) [],
    author := "Karan Desai",
    matching_heuristics := true }

/-- The `"model"` component is the rename-and-insert fold. -/
lemma detectron2_model_def (sd : List (String × π)) :
    (detectron2_backbone_state_dict sd).model
      = sd.foldl (fun d nv => dictInsert d (renameD2 nv.1) nv.2) [] := rfl

/-- Base class `VisualStream`: holds the fixed feature size set by
`__init__`. -/
structure VisualStream where
  _visual_feature_size : Nat

/-- The `VisualStream.__init__(visual_feature_size)`. -/
def VisualStream.init (visual_feature_size : Nat) : VisualStream :=
  { _visual_feature_size := visual_feature_size }

/-- The `visual_feature_size` property, returning
`self._visual_feature_size`. -/
def VisualStream.visual_feature_size (v : VisualStream) : Nat :=
  v._visual_feature_size

/-- An `nn.Parameter`: its tensor data (here a rank-2 tensor as a list of
rows) and its `requires_grad` flag. -/
structure NnParameter (ρ : Type) where
  data : List (List ρ)
  requires_grad : Bool

/-- The `BlindVisualStream`: the base state plus the `_bias` parameter. -/
structure BlindVisualStream (ρ : Type) extends VisualStream where
  _bias : NnParameter ρ

/-- The `BlindVisualStream.__init__`: `torch.full((1, visual_feature_size),
fill_value=bias_value)` wrapped in a parameter with `requires_grad=False`. -/
def BlindVisualStream.init (visual_feature_size : Nat) (bias_value : ρ) :
    BlindVisualStream ρ :=
  { toVisualStream := VisualStream.init visual_feature_size,
    _bias := { data := [List.replicate visual_feature_size bias_value],
               requires_grad := false } }

/-- The `BlindVisualStream.forward`: `self._bias.unsqueeze(0).repeat(batch_size,
1, 1)` where `batch_size = image.size(0)`.  The image is its list of
first-dimension slices, so `image.size(0)` is the list length; the result is
a rank-3 tensor of shape `(batch_size, 1, visual_feature_size)`. -/
def BlindVisualStream.forward (m : BlindVisualStream ρ) (image : List α) :
    List (List (List ρ)) :=
  List.replicate image.length m._bias.data

/-- The `BlindVisualStream.forward` with the post-call module state made
explicit: the method assigns to no attribute, so the state is returned
unchanged. -/
def BlindVisualStream.forwardS (m : BlindVisualStream ρ) (image : List α) :
    List (List (List ρ)) × BlindVisualStream ρ :=
  (m.forward image, m)

/-- The module state after a sequence of `forward` calls. -/
def BlindVisualStream.runForwards (m : BlindVisualStream ρ) :
    List (List α) → BlindVisualStream ρ
  | [] => m
  | img :: rest => BlindVisualStream.runForwards (m.forwardS img).2 rest

/-- The `Union[torch.Tensor, Dict[str, torch.Tensor]]` return type of the
two CNN `forward` methods. -/
inductive ForwardOut (T : Type) where
  | tensor : T → ForwardOut T
  | dict : List (String × T) → ForwardOut T
deriving DecidableEq

/-- The `TorchvisionVisualStream`: the base state, the wrapped backbone as its
ordered list of named children (`nn.Module.named_children()`), and
`_stage_names`. -/
structure TorchvisionVisualStream (T : Type) extends VisualStream where
  cnn : List (String × (T → T))
  _stage_names : List String

/-- The `self._stage_names = [f"layer{i}" for i in range(1, 5)]`. -/
def TV_STAGE_NAMES : List String :=
  (List.range' 1 4).map (fun i => "layer" ++ toString i)

/-- The `self.cnn.fc = nn.Identity()`: `nn.Module.__setattr__` replaces an
existing child of that name in place, otherwise registers a new child at the
end. -/
def setFc (cs : List (String × (T → T))) : List (String × (T → T)) :=
  if cs.any (fun nf => nf.1 == "fc") then
    cs.map (fun nf => if nf.1 == "fc" then ("fc", fun t => t) else nf)
  else cs ++ [("fc", fun t => t)]

/-- The `TorchvisionVisualStream.__init__`: the torchvision zoo constructor
`getattr(torchvision.models, name)(pretrained, zero_init_residual=True)` is
an external collaborator, so the children of the model it returns are a
parameter; `__init__` then replaces `fc` with `nn.Identity()` and sets the
stage names. -/
def TorchvisionVisualStream.init (visual_feature_size : Nat)
    (zooChildren : List (String × (T → T))) : TorchvisionVisualStream T :=
  { toVisualStream := VisualStream.init visual_feature_size,
    cnn := setFc zooChildren,
    _stage_names := TV_STAGE_NAMES }

/-- The shared `forward` loop: iterate the named children in order, feed the
image to the first child and each output to the next, and record the output
of every child whose name is in `stage`; the dictionary is built with Python
`d[name] = out`. -/
def tvLoop (stage : List String) :
    List (String × (T → T)) → T → List (String × T) → List (String × T)
  | [], _, d => d
  | (n, f) :: rest, x, d =>
    let out := f x
    tvLoop stage rest out (if stage.contains n then dictInsert d n out else d)

/-- The running value threaded through the loop (`out` after the listed
children have been applied). -/
def applyChain : List (String × (T → T)) → T → T
  | [], x => x
  | (_, f) :: rest, x => applyChain rest (f x)

/-- The `TorchvisionVisualStream.forward` body: collect intermediate outputs,
then either return the dict or `intermediate_outputs["layer4"]` (a missing
key is Python `KeyError`, modelled as `none`). -/
def tvForwardCore (stage : List String) (cnn : List (String × (T → T)))
    (image : T) (return_intermediate_outputs : Bool) : Option (ForwardOut T) :=
  let d := tvLoop stage cnn image []
  if return_intermediate_outputs then some (ForwardOut.dict d)
  else (d.lookup "layer4").map ForwardOut.tensor

/-- The `TorchvisionVisualStream.forward`. -/
def TorchvisionVisualStream.forward (m : TorchvisionVisualStream T) (image : T)
    (return_intermediate_outputs : Bool) : Option (ForwardOut T) :=
  tvForwardCore m._stage_names m.cnn image return_intermediate_outputs

/-- The `D2BackboneVisualStream.MODEL_NAME_TO_CFG_PATH`. -/
def MODEL_NAME_TO_CFG_PATH : List (String × String) :=
  [("coco_faster_rcnn_R_50_C4", "COCO-Detection/faster_rcnn_R_50_C4_3x.yaml"),
   ("coco_faster_rcnn_R_50_DC5", "COCO-Detection/faster_rcnn_R_50_DC5_3x.yaml"),
   ("coco_faster_rcnn_R_101_C4", "COCO-Detection/faster_rcnn_R_101_C4_3x.yaml"),
   ("coco_faster_rcnn_R_101_DC5", "COCO-Detection/faster_rcnn_R_101_DC5_3x.yaml"),
   ("coco_mask_rcnn_R_50_C4", "COCO-InstanceSegmentation/mask_rcnn_R_50_C4_3x.yaml"),
   ("coco_mask_rcnn_R_50_DC5", "COCO-InstanceSegmentation/mask_rcnn_R_50_DC5_3x.yaml"),
   ("coco_mask_rcnn_R_101_C4", "COCO-InstanceSegmentation/mask_rcnn_R_101_C4_3x.yaml"),
   ("coco_mask_rcnn_R_101_DC5", "COCO-InstanceSegmentation/mask_rcnn_R_101_DC5_3x.yaml")]

/-- The literal part of the pattern `WEIGHTS: "(.*)"\n`. -/
def weightsKeyLit : List Char := "WEIGHTS: \"".data

/-- One anchored attempt of `re.search('WEIGHTS: "(.*)"\n', ...)`: after the
literal, `.` cannot match a newline and `(.*)` is greedy followed by `"\n`,
so the attempt succeeds exactly when the rest of the current line is
nonempty and ends with `"` immediately before a newline; the group is that
line segment without its closing quote. -/
def matchWeightsAt (s : List Char) : Option (List Char) :=
  if weightsKeyLit.isPrefixOf s then
    let rest := s.drop weightsKeyLit.length
    let line := rest.takeWhile (fun c => !(c == '\n'))
    if line.length < rest.length then
      if line.getLast? == some '\"' then some line.dropLast else none
    else none
  else none

/-- The `re.search` scans for the leftmost position where the pattern matches. -/
def searchWeightsAux : List Char → Option (List Char)
  | [] => none
  | c :: cs =>
    match matchWeightsAt (c :: cs) with
    | some g => some g
    | none => searchWeightsAux cs

/-- The `re.search('WEIGHTS: "(.*)"\n', contents)[1]`, with `none` for a failed
search (where the Python subscript on `None` raises `TypeError`). -/
def searchWeightsS (s : String) : Option String :=
  (searchWeightsAux s.data).map (fun g => String.mk g)

/-- The exceptions `D2BackboneVisualStream.__init__` can raise: the
`KeyError` of a name missing from `MODEL_NAME_TO_CFG_PATH`, the
`RuntimeError` raised on `FileNotFoundError`, the `TypeError` of
subscripting a failed `re.search`, and a re-raised exception of the
`d2mz.get` constructor. -/
inductive D2Error (ε : Type) where
  | keyError : D2Error ε
  | runtimeError : D2Error ε
  | typeError : D2Error ε
  | ctorError : ε → D2Error ε
deriving DecidableEq

/-- The `try: d2_model = d2mz.get(...)` phase: the table lookup raises
`KeyError` for an unknown name; otherwise the external constructor runs on
the config file as it stands, and `except Exception` stores its error,
which `__init__` re-raises at the end. -/
def d2CtorPhase (inTable : Bool) (ctor : Option String → Except ε β)
    (file : Option String) : Except (D2Error ε) β :=
  if inTable then
    match ctor file with
    | Except.ok b => Except.ok b
    | Except.error e => Except.error (D2Error.ctorError e)
  else Except.error D2Error.keyError

/-- The `D2BackboneVisualStream.__init__` as a function of the model-zoo config
file (`none` models a missing file, whose `open` raises
`FileNotFoundError`) and of the external constructor `d2mz.get` (which
reads the file at call time).  Returns the outcome together with the final
file content.  With `pretrained=False` the `WEIGHTS` value found by
`re.search` is replaced by the empty string before the constructor runs and
written back afterwards, in both the success and the error case. -/
def d2Init (name : String) (pretrained : Bool) (file : Option String)
    (ctor : Option String → Except ε β) : Except (D2Error ε) β × Option String :=
  let inTable := (MODEL_NAME_TO_CFG_PATH.lookup name).isSome
  if pretrained then
    (d2CtorPhase inTable ctor file, file)
  else
    if inTable then
      match file with
      | none => (Except.error D2Error.runtimeError, none)
      | some contents =>
        match searchWeightsS contents with
        | none => (Except.error D2Error.typeError, some contents)
        | some w =>
          let patched := pyReplaceS contents w ""
          let res := d2CtorPhase true ctor (some patched)
          let restored := pyReplaceS patched "WEIGHTS: \"\""
            ("WEIGHTS: \"" ++ w ++ "\"")
          (res, some restored)
    else (Except.error D2Error.keyError, file)

/-- The `self._stage_names = [f"res{i}" for i in range(2, 5)]`. -/
def D2_STAGE_NAMES : List String :=
  (List.range' 2 3).map (fun i => "res" ++ toString i)

/-- The `D2BackboneVisualStream`: the base state, the backbone children, and the
separately attached fourth stage `self._layer4 = d2_model.roi_heads.res5`. -/
structure D2BackboneVisualStream (T : Type) extends VisualStream where
  cnn : List (String × (T → T))
  _layer4 : T → T
  _stage_names : List String

/-- The module assembled on the success path of
`D2BackboneVisualStream.__init__` from the external constructor's backbone
children and `roi_heads.res5`. -/
def mkD2Module (visual_feature_size : Nat)
    (p : List (String × (T → T)) × (T → T)) : D2BackboneVisualStream T :=
  { toVisualStream := VisualStream.init visual_feature_size,
    cnn := p.1,
    _layer4 := p.2,
    _stage_names := D2_STAGE_NAMES }

/-- The `D2BackboneVisualStream.__init__`, returning the constructed module (or
the raised exception) together with the final config-file content. -/
def D2BackboneVisualStream.init (name : String) (visual_feature_size : Nat)
    (pretrained : Bool) (file : Option String)
    (ctor : Option String → Except ε (List (String × (T → T)) × (T → T))) :
    Except (D2Error ε) (D2BackboneVisualStream T) × Option String :=
  match d2Init name pretrained file ctor with
  | (Except.ok p, f) => (Except.ok (mkD2Module visual_feature_size p), f)
  | (Except.error e, f) => (Except.error e, f)

/-- The `D2BackboneVisualStream.forward` body: the same child loop over the
backbone (whose stages stop at `res4`), then
`intermediate_outputs["res5"] = self._layer4(out)` — a `NameError` if the
backbone has no children, since `out` is then unbound — and the renaming
dict literal `res2..res5 -> layer1..layer4`, whose four subscripts raise
`KeyError` (`none`) when a stage is missing. -/
def d2ForwardCore (stage : List String) (cnn : List (String × (T → T)))
    (layer4 : T → T) (image : T) (return_intermediate_outputs : Bool) :
    Option (ForwardOut T) :=
  if cnn.isEmpty then none
  else
    let d := tvLoop stage cnn image []
    let out := applyChain cnn image
    let d2 := dictInsert d "res5" (layer4 out)
    match d2.lookup "res2", d2.lookup "res3", d2.lookup "res4", d2.lookup "res5" with
    | some r2, some r3, some r4, some r5 =>
      let renamed := [("layer1", r2), ("layer2", r3), ("layer3", r4), ("layer4", r5)]
      if return_intermediate_outputs then some (ForwardOut.dict renamed)
      else some (ForwardOut.tensor r5)
    | _, _, _, _ => none

/-- The `D2BackboneVisualStream.forward`. -/
def D2BackboneVisualStream.forward (m : D2BackboneVisualStream T) (image : T)
    (return_intermediate_outputs : Bool) : Option (ForwardOut T) :=
  d2ForwardCore m._stage_names m.cnn m._layer4 image return_intermediate_outputs

/-- Skipping exactly the length of `x` resumes the scan after `x`. -/
lemma replAux_skip (t r : List Char) :
    ∀ (x y : List Char), replAux t r (x ++ y) x.length = replAux t r y 0
  | [], _ => rfl
  | _ :: x', y => by
    simpa [replAux] using replAux_skip t r x' y

/-- A string with no occurrence of the pattern is returned unchanged. -/
lemma replAux_of_countOcc_zero (t r : List Char) :
    ∀ s : List Char, countOcc t s = 0 → replAux t r s 0 = s
  | [], _ => rfl
  | c :: cs, h => by
    by_cases hp : t.isPrefixOf (c :: cs)
    · exfalso
      have hc : countOccAux t cs (t.length - 1) + 1 = 0 := by
        simpa [countOcc, countOccAux, hp] using h
      exact Nat.succ_ne_zero _ hc
    · have h' : countOcc t cs = 0 := by
        simpa [countOcc, countOccAux, hp] using h
      simp [replAux, hp, replAux_of_countOcc_zero t r cs h']

/-- Replacement of the unique occurrence of a pattern: if no occurrence
starts inside `a` and none occurs in `b`, replacing in `a ++ t ++ b` yields
`a ++ r ++ b`. -/
lemma replace_decomp (t r : List Char) (ht : t ≠ []) :
    ∀ (a b : List Char),
      (∀ i, i < a.length → t.isPrefixOf ((a ++ (t ++ b)).drop i) = false) →
      countOcc t b = 0 →
      replAux t r (a ++ (t ++ b)) 0 = a ++ (r ++ b)
  | [], b, _, h2 => by
    match t, ht with
    | c :: t', _ =>
      have hpre : (c :: t').isPrefixOf (c :: (t' ++ b)) = true := by
        have : (c :: t') ++ b = c :: (t' ++ b) := rfl
        rw [← this]
        simp [List.isPrefixOf_iff_prefix]
      have hskip := replAux_skip (c :: t') r t' b
      have hz := replAux_of_countOcc_zero (c :: t') r b h2
      show replAux (c :: t') r (c :: (t' ++ b)) 0 = r ++ b
      simp [replAux, hpre, hskip, hz]
  | ah :: a', b, h1, h2 => by
    have h0 : t.isPrefixOf (ah :: (a' ++ (t ++ b))) = false := by
      simpa using h1 0 (Nat.succ_pos _)
    have ih := replace_decomp t r ht a' b
      (fun i hi => by simpa using h1 (i + 1) (Nat.succ_lt_succ hi)) h2
    show replAux t r (ah :: (a' ++ (t ++ b))) 0 = ah :: (a' ++ (r ++ b))
    simp [replAux, h0, ih]

/-- A key absent from the keys makes the Python membership test false. -/
lemma any_key_eq_false_of_not_mem (d : List (String × π)) (k : String)
    (h : k ∉ d.map Prod.fst) : d.any (fun kv => kv.1 == k) = false := by
  induction d with
  | nil => rfl
  | cons kv d' ih =>
    simp only [List.map_cons, List.mem_cons, not_or] at h
    have hne : kv.1 ≠ k := fun hh => h.1 hh.symm
    simp [List.any_cons, beq_eq_false_iff_ne.mpr hne, ih h.2]

/-- Inserting a fresh key appends it. -/
lemma dictInsert_fresh (d : List (String × π)) (k : String) (v : π)
    (h : d.any (fun kv => kv.1 == k) = false) : dictInsert d k v = d ++ [(k, v)] := by
  simp [dictInsert, h]

/-- A key absent from the keys is not found by `lookup`. -/
lemma lookup_none_of_not_mem (d : List (String × π)) (k : String)
    (h : k ∉ d.map Prod.fst) : d.lookup k = none := by
  induction d with
  | nil => rfl
  | cons kv d' ih =>
    simp only [List.map_cons, List.mem_cons, not_or] at h
    simp [List.lookup, beq_eq_false_iff_ne.mpr h.1, ih h.2]

/-- Appending a differently-keyed pair does not change a lookup. -/
lemma lookup_append_single_ne (d : List (String × π)) (k n : String) (v : π)
    (h : n ≠ k) : (d ++ [(k, v)]).lookup n = d.lookup n := by
  induction d with
  | nil => simp [List.lookup, beq_eq_false_iff_ne.mpr h]
  | cons kv d' ih => by_cases hk : n == kv.1 <;> simp [List.lookup, hk, ih]

/-- The `lookup` on a cons whose key matches. -/
lemma lookup_cons_pos (x : String) (y : π) (d : List (String × π)) (n : String)
    (h : (n == x) = true) : ((x, y) :: d).lookup n = some y := by
  simp [List.lookup, h]

/-- The `lookup` on a cons whose key differs. -/
lemma lookup_cons_neg (x : String) (y : π) (d : List (String × π)) (n : String)
    (h : (n == x) = false) : ((x, y) :: d).lookup n = d.lookup n := by
  simp [List.lookup, h]

/-- The in-place update of key `k` does not change lookups of other keys. -/
lemma lookup_update_ne (d : List (String × π)) (k n : String) (v : π)
    (h : n ≠ k) :
    (d.map (fun kv => if kv.1 == k then (k, v) else kv)).lookup n = d.lookup n := by
  induction d with
  | nil => rfl
  | cons kv d' ih =>
    rcases kv with ⟨x, y⟩
    simp only [List.map_cons]
    by_cases hk : (x == k) = true
    · rw [if_pos hk]
      have hx : x = k := eq_of_beq hk
      rw [lookup_cons_neg _ _ _ _ (beq_eq_false_iff_ne.mpr h),
          lookup_cons_neg _ _ _ _ (beq_eq_false_iff_ne.mpr (hx ▸ h)), ih]
    · rw [if_neg hk]
      by_cases hn : (n == x) = true
      · rw [lookup_cons_pos _ _ _ _ hn, lookup_cons_pos _ _ _ _ hn]
      · rw [lookup_cons_neg _ _ _ _ (by simpa using hn),
            lookup_cons_neg _ _ _ _ (by simpa using hn), ih]

/-- Python `d[k] = v` leaves every other key's value unchanged. -/
lemma lookup_dictInsert_ne (d : List (String × π)) (k n : String) (v : π)
    (h : n ≠ k) : (dictInsert d k v).lookup n = d.lookup n := by
  unfold dictInsert
  by_cases ha : d.any (fun kv => kv.1 == k) = true
  · rw [if_pos ha]; exact lookup_update_ne d k n v h
  · rw [if_neg ha]; exact lookup_append_single_ne d k n v h

/-- In-place update of a present key makes its value `v`. -/
lemma lookup_update_self (d : List (String × π)) (k : String) (v : π)
    (ha : d.any (fun kv => kv.1 == k) = true) :
    (d.map (fun kv => if kv.1 == k then (k, v) else kv)).lookup k = some v := by
  induction d with
  | nil => simp at ha
  | cons kv d' ih =>
    rcases kv with ⟨x, y⟩
    simp only [List.map_cons]
    by_cases hk : (x == k) = true
    · rw [if_pos hk]
      exact lookup_cons_pos _ _ _ _ (by simp)
    · rw [if_neg hk]
      have ha' : d'.any (fun kv => kv.1 == k) = true := by
        simpa [List.any_cons, hk] using ha
      have hne : (k == x) = false := by
        refine beq_eq_false_iff_ne.mpr (fun hh => ?_)
        exact absurd (by simp [hh]) hk
      rw [lookup_cons_neg _ _ _ _ hne]
      exact ih ha'

/-- A key absent as witnessed by a failed membership test. -/
lemma not_mem_of_any_false (d : List (String × π)) (k : String)
    (h : d.any (fun kv => kv.1 == k) = false) : k ∉ d.map Prod.fst := by
  intro hm
  rcases List.mem_map.mp hm with ⟨kv, hkv, hke⟩
  have ht : d.any (fun kv => kv.1 == k) = true :=
    List.any_eq_true.mpr ⟨kv, hkv, by simp [hke]⟩
  rw [ht] at h
  cases h

/-- Appending a fresh pair makes its key found with its value. -/
lemma lookup_append_single_self (d : List (String × π)) (k : String) (v : π)
    (h : d.lookup k = none) : (d ++ [(k, v)]).lookup k = some v := by
  induction d with
  | nil => exact lookup_cons_pos _ _ _ _ (by simp)
  | cons kv d' ih =>
    rcases kv with ⟨x, y⟩
    by_cases hn : (k == x) = true
    · rw [lookup_cons_pos _ _ _ _ hn] at h
      cases h
    · have h' : d'.lookup k = none := by
        rwa [lookup_cons_neg _ _ _ _ (by simpa using hn)] at h
      show ((x, y) :: (d' ++ [(k, v)])).lookup k = some v
      rw [lookup_cons_neg _ _ _ _ (by simpa using hn)]
      exact ih h'

/-- Python `d[k] = v` makes `d[k]` equal to `v`. -/
lemma lookup_dictInsert_self (d : List (String × π)) (k : String) (v : π) :
    (dictInsert d k v).lookup k = some v := by
  unfold dictInsert
  by_cases ha : d.any (fun kv => kv.1 == k) = true
  · rw [if_pos ha]
    exact lookup_update_self d k v ha
  · rw [if_neg ha]
    have hb : d.any (fun kv => kv.1 == k) = false := by
      cases hh : d.any (fun kv => kv.1 == k)
      · rfl
      · exact absurd hh ha
    exact lookup_append_single_self d k v
      (lookup_none_of_not_mem d k (not_mem_of_any_false d k hb))

/-- The loop dictionary over concatenated child lists. -/
lemma tvLoop_append (stage : List String) (a b : List (String × (T → T)))
    (x : T) (d : List (String × T)) :
    tvLoop stage (a ++ b) x d = tvLoop stage b (applyChain a x) (tvLoop stage a x d) := by
  induction a generalizing x d with
  | nil => rfl
  | cons nf rest ih =>
    cases nf with
    | mk n f => simp [tvLoop, applyChain, ih]

/-- Children outside the stage list leave the dictionary unchanged. -/
lemma tvLoop_disjoint (stage : List String) (cs : List (String × (T → T)))
    (x : T) (d : List (String × T))
    (h : ∀ n ∈ cs.map Prod.fst, n ∉ stage) :
    tvLoop stage cs x d = d := by
  induction cs generalizing x with
  | nil => rfl
  | cons nf rest ih =>
    cases nf with
    | mk n f =>
      have hn : n ∉ stage := h n (by simp)
      have h' : ∀ m ∈ rest.map Prod.fst, m ∉ stage :=
        fun m hm => h m (by simp [hm])
      simp [tvLoop, hn, ih _ h']

/-- A stage-named child records its output. -/
lemma tvLoop_stage_cons (stage : List String) (n : String) (f : T → T)
    (rest : List (String × (T → T))) (x : T) (d : List (String × T))
    (h : n ∈ stage) :
    tvLoop stage ((n, f) :: rest) x d = tvLoop stage rest (f x) (dictInsert d n (f x)) := by
  simp [tvLoop, h]

/-- Children whose names avoid `k` do not change the dictionary at `k`. -/
lemma tvLoop_lookup_of_not_mem (stage : List String)
    (cs : List (String × (T → T))) (x : T) (d : List (String × T)) (k : String)
    (h : k ∉ cs.map Prod.fst) :
    (tvLoop stage cs x d).lookup k = d.lookup k := by
  induction cs generalizing x d with
  | nil => rfl
  | cons nf rest ih =>
    cases nf with
    | mk n f =>
      simp only [List.map_cons, List.mem_cons, not_or] at h
      by_cases hc : n ∈ stage
      · rw [tvLoop_stage_cons _ _ _ _ _ _ hc, ih _ _ h.2,
          lookup_dictInsert_ne _ _ _ _ h.1]
      · simp [tvLoop, hc, ih _ _ h.2]

/-- Threading the running value through concatenated child lists. -/
lemma applyChain_append (a b : List (String × (T → T))) (x : T) :
    applyChain (a ++ b) x = applyChain b (applyChain a x) := by
  induction a generalizing x with
  | nil => rfl
  | cons nf rest ih =>
    cases nf with
    | mk n f => simp [applyChain, ih]

/-- The state-dict fold appends one renamed entry per source entry whenever
the renamed keys (together with the accumulator's keys) are distinct. -/
lemma foldl_renameInsert (sd : List (String × π)) :
    ∀ acc : List (String × π),
      (acc.map Prod.fst ++ sd.map (fun nv => renameD2 nv.1)).Nodup →
      sd.foldl (fun d nv => dictInsert d (renameD2 nv.1) nv.2) acc
        = acc ++ sd.map (fun nv => (renameD2 nv.1, nv.2)) := by
  induction sd with
  | nil => intro acc _; simp
  | cons nv sd' ih =>
    intro acc h
    have hk : renameD2 nv.1 ∉ acc.map Prod.fst := by
      rcases List.nodup_append.mp h with ⟨-, -, hdisj⟩
      intro hm
      exact hdisj hm (by simp)
    have hfresh := dictInsert_fresh acc (renameD2 nv.1) nv.2
      (any_key_eq_false_of_not_mem _ _ hk)
    have h' : ((acc ++ [(renameD2 nv.1, nv.2)]).map Prod.fst
        ++ sd'.map (fun nv => renameD2 nv.1)).Nodup := by
      simpa [List.append_assoc] using h
    calc (nv :: sd').foldl (fun d nv => dictInsert d (renameD2 nv.1) nv.2) acc
        = sd'.foldl (fun d nv => dictInsert d (renameD2 nv.1) nv.2)
            (acc ++ [(renameD2 nv.1, nv.2)]) := by
          simp [List.foldl_cons, hfresh]
      _ = (acc ++ [(renameD2 nv.1, nv.2)])
            ++ sd'.map (fun nv => (renameD2 nv.1, nv.2)) := ih _ h'
      _ = acc ++ ((nv :: sd').map (fun nv => (renameD2 nv.1, nv.2))) := by
          simp

/-- The `forward` never assigns to the module, so any sequence of calls leaves
the state unchanged. -/
lemma runForwards_id (m : BlindVisualStream ρ) :
    ∀ imgs : List (List α), m.runForwards imgs = m
  | [] => rfl
  | _ :: rest => runForwards_id m rest

/-- C5: `BlindVisualStream.forward` returns a constant tensor of shape
`(batch_size, 1, visual_feature_size)` with every entry `bias_value`, and it
depends on the image only through its first dimension, so two inputs with
the same batch size yield equal outputs. -/
theorem blind_forward_constant (vfs : Nat) (bv : ρ) (image : List α)
    (image2 : List β) (h : image2.length = image.length) :
    ((BlindVisualStream.init vfs bv).forward image).length = image.length
    ∧ (∀ mat ∈ (BlindVisualStream.init vfs bv).forward image,
        mat = [List.replicate vfs bv])
    ∧ (BlindVisualStream.init vfs bv).forward image2
        = (BlindVisualStream.init vfs bv).forward image := by
  refine ⟨by simp [BlindVisualStream.forward], ?_, ?_⟩
  · intro mat hm
    have hmem := List.eq_of_mem_replicate hm
    simpa [BlindVisualStream.init, VisualStream.init] using hmem
  · simp [BlindVisualStream.forward, h]

/-- Witness for C5 at a concrete batch of size two (the second image even
has a different element type). -/
theorem blind_forward_constant_witness :
    ((BlindVisualStream.init 3 (7 : Nat)).forward [10, 20]).length
        = ([10, 20] : List Nat).length
    ∧ (∀ mat ∈ (BlindVisualStream.init 3 (7 : Nat)).forward [10, 20],
        mat = [List.replicate 3 (7 : Nat)])
    ∧ (BlindVisualStream.init 3 (7 : Nat)).forward [true, false]
        = (BlindVisualStream.init 3 (7 : Nat)).forward ([10, 20] : List Nat) :=
  blind_forward_constant 3 7 [10, 20] [true, false] (by decide)

/-- C6: the bias of `BlindVisualStream` is registered with
`requires_grad=False`, and no sequence of `forward` calls changes the module
state, so the bias keeps the construction-time `bias_value`. -/
theorem blind_bias_nontrainable (vfs : Nat) (bv : ρ) (imgs : List (List α)) :
    (BlindVisualStream.init vfs bv)._bias.requires_grad = false
    ∧ (BlindVisualStream.init vfs bv).runForwards imgs = BlindVisualStream.init vfs bv
    ∧ ((BlindVisualStream.init vfs bv).runForwards imgs)._bias.data
        = [List.replicate vfs bv] :=
  ⟨rfl, runForwards_id _ imgs, by rw [runForwards_id]; rfl⟩

/-- C8: `visual_feature_size` returns the construction argument on the base
class and every subclass, and no operation (a sequence of `forward` calls,
or the `D2BackboneVisualStream` constructor completing successfully) changes
it. -/
theorem visual_feature_size_fixed (n : Nat) (bv : ρ) (cs : List (String × (T → T)))
    (imgs : List (List α)) :
    (VisualStream.init n).visual_feature_size = n
    ∧ (BlindVisualStream.init n bv).toVisualStream.visual_feature_size = n
    ∧ (TorchvisionVisualStream.init n cs).toVisualStream.visual_feature_size = n
    ∧ ((BlindVisualStream.init n bv).runForwards imgs).toVisualStream.visual_feature_size = n
    ∧ (∀ (name : String) (pretrained : Bool) (file : Option String)
        (ctor : Option String → Except ε (List (String × (T → T)) × (T → T)))
        (m : D2BackboneVisualStream T) (file2 : Option String),
        D2BackboneVisualStream.init name n pretrained file ctor = (Except.ok m, file2) →
        m.toVisualStream.visual_feature_size = n) := by
  refine ⟨rfl, rfl, rfl, by rw [runForwards_id]; rfl, ?_⟩
  intro name pretrained file ctor m file2 hEq
  unfold D2BackboneVisualStream.init at hEq
  rcases hd : d2Init name pretrained file ctor with ⟨res, f⟩
  rw [hd] at hEq
  cases res with
  | ok p =>
    have hm : Except.ok (mkD2Module n p) = (Except.ok m : Except (D2Error _) _) :=
      congrArg Prod.fst hEq
    cases hm
    rfl
  | error e => cases congrArg Prod.fst hEq

/-- Witness for C8: a successful concrete `D2BackboneVisualStream`
construction (`pretrained=True`, so no config patching) yields a module
whose feature size is the given 2048. -/
theorem visual_feature_size_fixed_witness :
    (mkD2Module 2048 ([("stem", fun (x : Nat) => x + 1)], fun x => x * 2)).toVisualStream.visual_feature_size
      = 2048 :=
  (visual_feature_size_fixed 2048 (0 : Nat) ([] : List (String × (Nat → Nat)))
      ([] : List (List Nat))).2.2.2.2
    "coco_faster_rcnn_R_50_C4" true none
    (fun _ => (Except.ok ([("stem", fun (x : Nat) => x + 1)], fun x => x * 2) :
      Except Nat (List (String × (Nat → Nat)) × (Nat → Nat))))
    (mkD2Module 2048 ([("stem", fun (x : Nat) => x + 1)], fun x => x * 2)) none rfl

/-- After `__init__`, the child registered under `fc` is the identity. -/
lemma lookup_fc_setFc (cs : List (String × (T → T))) :
    (setFc cs).lookup "fc" = some (fun t => t) := by
  unfold setFc
  by_cases ha : cs.any (fun nf => nf.1 == "fc") = true
  · rw [if_pos ha]
    exact lookup_update_self cs "fc" (fun t => t) ha
  · rw [if_neg ha]
    have hb : cs.any (fun nf => nf.1 == "fc") = false := by
      cases hh : cs.any (fun nf => nf.1 == "fc")
      · rfl
      · exact absurd hh ha
    exact lookup_append_single_self cs "fc" (fun t => t)
      (lookup_none_of_not_mem cs "fc" (not_mem_of_any_false cs "fc" hb))

/-- C7: `TorchvisionVisualStream.__init__` replaces `self.cnn.fc` by an
identity module, and `forward` with `return_intermediate_outputs=False`
returns the output of the child named `layer4`, whatever children (average
pooling, the former head) follow it. -/
theorem tv_strips_classification_head (vfs : Nat)
    (zoo pre post : List (String × (T → T))) (f : T → T) (image : T)
    (hdecomp : (TorchvisionVisualStream.init vfs zoo).cnn = pre ++ ("layer4", f) :: post)
    (hpost : "layer4" ∉ post.map Prod.fst) :
    (TorchvisionVisualStream.init vfs zoo).cnn.lookup "fc" = some (fun t => t)
    ∧ (TorchvisionVisualStream.init vfs zoo).forward image false
        = some (ForwardOut.tensor (f (applyChain pre image))) := by
  constructor
  · exact lookup_fc_setFc zoo
  · show ((tvLoop TV_STAGE_NAMES (TorchvisionVisualStream.init vfs zoo).cnn image []).lookup
        "layer4").map ForwardOut.tensor = _
    rw [hdecomp, tvLoop_append,
      tvLoop_stage_cons _ _ _ _ _ _ (by decide : ("layer4" : String) ∈ TV_STAGE_NAMES),
      tvLoop_lookup_of_not_mem _ _ _ _ _ hpost, lookup_dictInsert_self]
    rfl

/-- Witness for C7 on a concrete four-child backbone over `Nat`. -/
theorem tv_strips_classification_head_witness :
    (TorchvisionVisualStream.init 2048
        [("conv1", fun x => x + 1), ("layer4", fun x => x * 2),
         ("avgpool", fun x => x + 5), ("fc", fun x => x + 7)]).cnn.lookup "fc"
      = some (fun t => t)
    ∧ (TorchvisionVisualStream.init 2048
        [("conv1", fun x => x + 1), ("layer4", fun x => x * 2),
         ("avgpool", fun x => x + 5), ("fc", fun x => x + 7)]).forward 3 false
      = some (ForwardOut.tensor 8) :=
  tv_strips_classification_head 2048
    [("conv1", fun x => x + 1), ("layer4", fun x => x * 2),
     ("avgpool", fun x => x + 5), ("fc", fun x => x + 7)]
    [("conv1", fun x => x + 1)] [("avgpool", fun x => x + 5), ("fc", fun t => t)]
    (fun x => x * 2) 3 rfl (by decide)

/-- The loop dictionary for a backbone whose children are the four stages
in order, separated by non-stage children. -/
lemma tvLoop_four_stages (c0 c1 c2 c3 c4 : List (String × (T → T)))
    (f1 f2 f3 f4 : T → T) (image : T)
    (h0 : ∀ n ∈ c0.map Prod.fst, n ∉ TV_STAGE_NAMES)
    (h1 : ∀ n ∈ c1.map Prod.fst, n ∉ TV_STAGE_NAMES)
    (h2 : ∀ n ∈ c2.map Prod.fst, n ∉ TV_STAGE_NAMES)
    (h3 : ∀ n ∈ c3.map Prod.fst, n ∉ TV_STAGE_NAMES)
    (h4 : ∀ n ∈ c4.map Prod.fst, n ∉ TV_STAGE_NAMES) :
    tvLoop TV_STAGE_NAMES
      (c0 ++ ("layer1", f1) :: (c1 ++ ("layer2", f2) :: (c2 ++ ("layer3", f3)
        :: (c3 ++ ("layer4", f4) :: c4))))
      image []
    = [("layer1", f1 (applyChain c0 image)),
       ("layer2", f2 (applyChain c1 (f1 (applyChain c0 image)))),
       ("layer3", f3 (applyChain c2 (f2 (applyChain c1 (f1 (applyChain c0 image)))))),
       ("layer4", f4 (applyChain c3 (f3 (applyChain c2 (f2 (applyChain c1
          (f1 (applyChain c0 image))))))))] := by
  rw [tvLoop_append, tvLoop_disjoint _ _ _ _ h0,
    tvLoop_stage_cons _ _ _ _ _ _ (by decide : ("layer1" : String) ∈ TV_STAGE_NAMES),
    tvLoop_append, tvLoop_disjoint _ _ _ _ h1,
    tvLoop_stage_cons _ _ _ _ _ _ (by decide : ("layer2" : String) ∈ TV_STAGE_NAMES),
    tvLoop_append, tvLoop_disjoint _ _ _ _ h2,
    tvLoop_stage_cons _ _ _ _ _ _ (by decide : ("layer3" : String) ∈ TV_STAGE_NAMES),
    tvLoop_append, tvLoop_disjoint _ _ _ _ h3,
    tvLoop_stage_cons _ _ _ _ _ _ (by decide : ("layer4" : String) ∈ TV_STAGE_NAMES),
    tvLoop_disjoint _ _ _ _ h4]
  rfl

/-- C3: with children named `layer1..layer4` (in order, among non-stage
children), `forward(image, return_intermediate_outputs=True)` feeds the
image through the children sequentially and returns the dict whose keys are
exactly `layer1..layer4`, each mapped to the output of the child of that
name. -/
theorem tv_forward_intermediate_outputs (vfs : Nat)
    (c0 c1 c2 c3 c4 : List (String × (T → T)))
    (f1 f2 f3 f4 : T → T) (image : T)
    (h0 : ∀ n ∈ c0.map Prod.fst, n ∉ TV_STAGE_NAMES)
    (h1 : ∀ n ∈ c1.map Prod.fst, n ∉ TV_STAGE_NAMES)
    (h2 : ∀ n ∈ c2.map Prod.fst, n ∉ TV_STAGE_NAMES)
    (h3 : ∀ n ∈ c3.map Prod.fst, n ∉ TV_STAGE_NAMES)
    (h4 : ∀ n ∈ c4.map Prod.fst, n ∉ TV_STAGE_NAMES) :
    TorchvisionVisualStream.forward
      { toVisualStream := VisualStream.init vfs,
        cnn := c0 ++ ("layer1", f1) :: (c1 ++ ("layer2", f2) :: (c2 ++ ("layer3", f3)
          :: (c3 ++ ("layer4", f4) :: c4))),
        _stage_names := TV_STAGE_NAMES } image true
    = some (ForwardOut.dict
        [("layer1", f1 (applyChain c0 image)),
         ("layer2", f2 (applyChain c1 (f1 (applyChain c0 image)))),
         ("layer3", f3 (applyChain c2 (f2 (applyChain c1 (f1 (applyChain c0 image)))))),
         ("layer4", f4 (applyChain c3 (f3 (applyChain c2 (f2 (applyChain c1
            (f1 (applyChain c0 image))))))))]) := by
  show some (ForwardOut.dict (tvLoop TV_STAGE_NAMES _ image [])) = _
  rw [tvLoop_four_stages c0 c1 c2 c3 c4 f1 f2 f3 f4 image h0 h1 h2 h3 h4]

/-- Witness for C3 on a concrete ResNet-shaped child list over `Nat`. -/
theorem tv_forward_intermediate_outputs_witness :
    TorchvisionVisualStream.forward
      { toVisualStream := VisualStream.init 2048,
        cnn := [("conv1", fun x => x + 1), ("bn1", fun x => x + 2),
            ("relu", fun (x : Nat) => x), ("maxpool", fun x => x)]
          ++ ("layer1", fun x => x * 2) :: ([]
          ++ ("layer2", fun x => x + 3) :: ([]
          ++ ("layer3", fun x => x * 5) :: ([]
          ++ ("layer4", fun x => x + 7)
            :: [("avgpool", fun x => x), ("fc", fun x => x)]))),
        _stage_names := TV_STAGE_NAMES } 0 true
    = some (ForwardOut.dict
        [("layer1", 6), ("layer2", 9), ("layer3", 45), ("layer4", 52)]) :=
  tv_forward_intermediate_outputs 2048
    [("conv1", fun x => x + 1), ("bn1", fun x => x + 2),
     ("relu", fun (x : Nat) => x), ("maxpool", fun x => x)]
    [] [] []
    [("avgpool", fun x => x), ("fc", fun x => x)]
    (fun x => x * 2) (fun x => x + 3) (fun x => x * 5) (fun x => x + 7) 0
    (by decide) (by decide) (by decide) (by decide) (by decide)

/-- Unfolding one child of the running value. -/
lemma applyChain_cons (n : String) (f : T → T) (rest : List (String × (T → T)))
    (x : T) : applyChain ((n, f) :: rest) x = applyChain rest (f x) := rfl

/-- Full evaluation of the `D2BackboneVisualStream.forward` body on a
backbone whose children are the stages `res2..res4` in order, separated by
non-stage children: the three collected stages plus `res5` from `_layer4`
are returned under the torchvision names `layer1..layer4`. -/
lemma d2ForwardCore_eval (d0 d1 d2f d3 : List (String × (T → T)))
    (g2 g3 g4 l4 : T → T) (image : T) (ret : Bool)
    (h0 : ∀ n ∈ d0.map Prod.fst, n ∉ D2_STAGE_NAMES)
    (h1 : ∀ n ∈ d1.map Prod.fst, n ∉ D2_STAGE_NAMES)
    (h2 : ∀ n ∈ d2f.map Prod.fst, n ∉ D2_STAGE_NAMES)
    (h3 : ∀ n ∈ d3.map Prod.fst, n ∉ D2_STAGE_NAMES) :
    d2ForwardCore D2_STAGE_NAMES
      (d0 ++ ("res2", g2) :: (d1 ++ ("res3", g3) :: (d2f ++ ("res4", g4) :: d3)))
      l4 image ret
    = (if ret then
        some (ForwardOut.dict
          [("layer1", g2 (applyChain d0 image)),
           ("layer2", g3 (applyChain d1 (g2 (applyChain d0 image)))),
           ("layer3", g4 (applyChain d2f (g3 (applyChain d1 (g2 (applyChain d0 image)))))),
           ("layer4", l4 (applyChain d3 (g4 (applyChain d2f (g3 (applyChain d1
              (g2 (applyChain d0 image))))))))])
      else
        some (ForwardOut.tensor (l4 (applyChain d3 (g4 (applyChain d2f (g3 (applyChain d1
          (g2 (applyChain d0 image)))))))))) := by
  have hne : (d0 ++ ("res2", g2) :: (d1 ++ ("res3", g3) :: (d2f ++ ("res4", g4) :: d3))).isEmpty
      = false := by
    cases d0 <;> rfl
  have hd : tvLoop D2_STAGE_NAMES
      (d0 ++ ("res2", g2) :: (d1 ++ ("res3", g3) :: (d2f ++ ("res4", g4) :: d3))) image []
      = [("res2", g2 (applyChain d0 image)),
         ("res3", g3 (applyChain d1 (g2 (applyChain d0 image)))),
         ("res4", g4 (applyChain d2f (g3 (applyChain d1 (g2 (applyChain d0 image))))))] := by
    rw [tvLoop_append, tvLoop_disjoint _ _ _ _ h0,
      tvLoop_stage_cons _ _ _ _ _ _ (by decide : ("res2" : String) ∈ D2_STAGE_NAMES),
      tvLoop_append, tvLoop_disjoint _ _ _ _ h1,
      tvLoop_stage_cons _ _ _ _ _ _ (by decide : ("res3" : String) ∈ D2_STAGE_NAMES),
      tvLoop_append, tvLoop_disjoint _ _ _ _ h2,
      tvLoop_stage_cons _ _ _ _ _ _ (by decide : ("res4" : String) ∈ D2_STAGE_NAMES),
      tvLoop_disjoint _ _ _ _ h3]
    rfl
  have hout : applyChain
      (d0 ++ ("res2", g2) :: (d1 ++ ("res3", g3) :: (d2f ++ ("res4", g4) :: d3))) image
      = applyChain d3 (g4 (applyChain d2f (g3 (applyChain d1 (g2 (applyChain d0 image)))))) := by
    rw [applyChain_append, applyChain_cons, applyChain_append, applyChain_cons,
      applyChain_append, applyChain_cons]
  unfold d2ForwardCore
  rw [hne, if_neg Bool.false_ne_true, hd, hout]
  rfl

/-- C4: both adapters expose the same normalized access pattern.  With
intermediate outputs requested, `TorchvisionVisualStream.forward` and
`D2BackboneVisualStream.forward` return dicts with exactly the keys
`layer1..layer4` (the latter renaming `res2->layer1`, `res3->layer2`,
`res4->layer3`, `res5->layer4`), and without them both return the tensor
stored under `layer4`. -/
theorem forward_output_access_equivalence (vfs1 vfs2 : Nat)
    (c0 c1 c2 c3 c4 d0 d1 d2f d3 : List (String × (T → T)))
    (f1 f2 f3 f4 g2 g3 g4 l4 : T → T) (image : T)
    (hc0 : ∀ n ∈ c0.map Prod.fst, n ∉ TV_STAGE_NAMES)
    (hc1 : ∀ n ∈ c1.map Prod.fst, n ∉ TV_STAGE_NAMES)
    (hc2 : ∀ n ∈ c2.map Prod.fst, n ∉ TV_STAGE_NAMES)
    (hc3 : ∀ n ∈ c3.map Prod.fst, n ∉ TV_STAGE_NAMES)
    (hc4 : ∀ n ∈ c4.map Prod.fst, n ∉ TV_STAGE_NAMES)
    (hd0 : ∀ n ∈ d0.map Prod.fst, n ∉ D2_STAGE_NAMES)
    (hd1 : ∀ n ∈ d1.map Prod.fst, n ∉ D2_STAGE_NAMES)
    (hd2 : ∀ n ∈ d2f.map Prod.fst, n ∉ D2_STAGE_NAMES)
    (hd3 : ∀ n ∈ d3.map Prod.fst, n ∉ D2_STAGE_NAMES) :
    TorchvisionVisualStream.forward
      { toVisualStream := VisualStream.init vfs1,
        cnn := c0 ++ ("layer1", f1) :: (c1 ++ ("layer2", f2) :: (c2 ++ ("layer3", f3)
          :: (c3 ++ ("layer4", f4) :: c4))),
        _stage_names := TV_STAGE_NAMES } image true
      = some (ForwardOut.dict
          [("layer1", f1 (applyChain c0 image)),
           ("layer2", f2 (applyChain c1 (f1 (applyChain c0 image)))),
           ("layer3", f3 (applyChain c2 (f2 (applyChain c1 (f1 (applyChain c0 image)))))),
           ("layer4", f4 (applyChain c3 (f3 (applyChain c2 (f2 (applyChain c1
              (f1 (applyChain c0 image))))))))])
    ∧ D2BackboneVisualStream.forward
      { toVisualStream := VisualStream.init vfs2,
        cnn := d0 ++ ("res2", g2) :: (d1 ++ ("res3", g3) :: (d2f ++ ("res4", g4) :: d3)),
        _layer4 := l4,
        _stage_names := D2_STAGE_NAMES } image true
      = some (ForwardOut.dict
          [("layer1", g2 (applyChain d0 image)),
           ("layer2", g3 (applyChain d1 (g2 (applyChain d0 image)))),
           ("layer3", g4 (applyChain d2f (g3 (applyChain d1 (g2 (applyChain d0 image)))))),
           ("layer4", l4 (applyChain d3 (g4 (applyChain d2f (g3 (applyChain d1
              (g2 (applyChain d0 image))))))))])
    ∧ TorchvisionVisualStream.forward
      { toVisualStream := VisualStream.init vfs1,
        cnn := c0 ++ ("layer1", f1) :: (c1 ++ ("layer2", f2) :: (c2 ++ ("layer3", f3)
          :: (c3 ++ ("layer4", f4) :: c4))),
        _stage_names := TV_STAGE_NAMES } image false
      = some (ForwardOut.tensor (f4 (applyChain c3 (f3 (applyChain c2 (f2 (applyChain c1
          (f1 (applyChain c0 image)))))))))
    ∧ D2BackboneVisualStream.forward
      { toVisualStream := VisualStream.init vfs2,
        cnn := d0 ++ ("res2", g2) :: (d1 ++ ("res3", g3) :: (d2f ++ ("res4", g4) :: d3)),
        _layer4 := l4,
        _stage_names := D2_STAGE_NAMES } image false
      = some (ForwardOut.tensor (l4 (applyChain d3 (g4 (applyChain d2f (g3 (applyChain d1
          (g2 (applyChain d0 image))))))))) := by
  have htv := tvLoop_four_stages c0 c1 c2 c3 c4 f1 f2 f3 f4 image hc0 hc1 hc2 hc3 hc4
  refine ⟨?_, ?_, ?_, ?_⟩
  · show some (ForwardOut.dict (tvLoop TV_STAGE_NAMES _ image [])) = _
    rw [htv]
  · have hd2 := d2ForwardCore_eval d0 d1 d2f d3 g2 g3 g4 l4 image true hd0 hd1 hd2 hd3
    simpa using hd2
  · show ((tvLoop TV_STAGE_NAMES _ image []).lookup "layer4").map ForwardOut.tensor = _
    rw [htv]
    rfl
  · have hd2 := d2ForwardCore_eval d0 d1 d2f d3 g2 g3 g4 l4 image false hd0 hd1 hd2 hd3
    simpa using hd2

/-- Witness for C4 on concrete torchvision-shaped and detectron2-shaped
backbones over `Nat`. -/
theorem forward_output_access_equivalence_witness :
    TorchvisionVisualStream.forward
      { toVisualStream := VisualStream.init 2048,
        cnn := [("conv1", fun (x : Nat) => x + 1)]
          ++ ("layer1", fun x => x * 2) :: ([]
          ++ ("layer2", fun x => x + 3) :: ([]
          ++ ("layer3", fun x => x * 5) :: ([]
          ++ ("layer4", fun x => x + 7) :: [("avgpool", fun x => x)]))),
        _stage_names := TV_STAGE_NAMES } 0 true
      = some (ForwardOut.dict
          [("layer1", 2), ("layer2", 5), ("layer3", 25), ("layer4", 32)])
    ∧ D2BackboneVisualStream.forward
      { toVisualStream := VisualStream.init 2048,
        cnn := [("stem", fun (x : Nat) => x + 1)]
          ++ ("res2", fun x => x * 2) :: ([]
          ++ ("res3", fun x => x + 3) :: ([]
          ++ ("res4", fun x => x * 5) :: [])),
        _layer4 := fun x => x + 7,
        _stage_names := D2_STAGE_NAMES } 0 true
      = some (ForwardOut.dict
          [("layer1", 2), ("layer2", 5), ("layer3", 25), ("layer4", 32)])
    ∧ TorchvisionVisualStream.forward
      { toVisualStream := VisualStream.init 2048,
        cnn := [("conv1", fun (x : Nat) => x + 1)]
          ++ ("layer1", fun x => x * 2) :: ([]
          ++ ("layer2", fun x => x + 3) :: ([]
          ++ ("layer3", fun x => x * 5) :: ([]
          ++ ("layer4", fun x => x + 7) :: [("avgpool", fun x => x)]))),
        _stage_names := TV_STAGE_NAMES } 0 false
      = some (ForwardOut.tensor 32)
    ∧ D2BackboneVisualStream.forward
      { toVisualStream := VisualStream.init 2048,
        cnn := [("stem", fun (x : Nat) => x + 1)]
          ++ ("res2", fun x => x * 2) :: ([]
          ++ ("res3", fun x => x + 3) :: ([]
          ++ ("res4", fun x => x * 5) :: [])),
        _layer4 := fun x => x + 7,
        _stage_names := D2_STAGE_NAMES } 0 false
      = some (ForwardOut.tensor 32) :=
  forward_output_access_equivalence 2048 2048
    [("conv1", fun (x : Nat) => x + 1)] [] [] [] [("avgpool", fun x => x)]
    [("stem", fun (x : Nat) => x + 1)] [] [] []
    (fun x => x * 2) (fun x => x + 3) (fun x => x * 5) (fun x => x + 7)
    (fun x => x * 2) (fun x => x + 3) (fun x => x * 5) (fun x => x + 7) 0
    (by decide) (by decide) (by decide) (by decide) (by decide)
    (by decide) (by decide) (by decide) (by decide)

/-- Under distinct renamed keys, looking a renamed key up in the renamed
list finds the original entry's value. -/
lemma lookup_map_rename (sd : List (String × π))
    (h : (sd.map (fun nv => renameD2 nv.1)).Nodup) :
    ∀ nv ∈ sd,
      (sd.map (fun nv => (renameD2 nv.1, nv.2))).lookup (renameD2 nv.1) = some nv.2 := by
  induction sd with
  | nil => intro nv hm; cases hm
  | cons hd sd' ih =>
    have h' : (renameD2 hd.1 :: sd'.map (fun nv => renameD2 nv.1)).Nodup := by
      rw [List.map_cons] at h; exact h
    have hc := List.nodup_cons.mp h'
    intro nv hm
    rcases List.mem_cons.mp hm with he | ht
    · subst he
      exact lookup_cons_pos _ _ _ _ (by simp)
    · have hne : renameD2 nv.1 ≠ renameD2 hd.1 := by
        intro hEq
        exact hc.1 (hEq ▸ List.mem_map.mpr ⟨nv, ht, rfl⟩)
      rw [List.map_cons, lookup_cons_neg _ _ _ _ (beq_eq_false_iff_ne.mpr hne)]
      exact ih hc.2 nv ht

/-- C1: the `"model"` entry of `detectron2_backbone_state_dict` maps each
renamed parameter name — table substrings replaced in order, then a
`"stem."` prefix for names not starting with `"res"` — to the unchanged
tensor of the original name. -/
theorem detectron2_state_dict_renames (sd : List (String × π))
    (h : (sd.map (fun nv => renameD2 nv.1)).Nodup) :
    (detectron2_backbone_state_dict sd).model
        = sd.map (fun nv => (renameD2 nv.1, nv.2))
    ∧ ∀ nv ∈ sd,
        ((detectron2_backbone_state_dict sd).model).lookup (renameD2 nv.1) = some nv.2 := by
  have hm : (detectron2_backbone_state_dict sd).model
      = sd.map (fun nv => (renameD2 nv.1, nv.2)) := by
    have hf := foldl_renameInsert sd [] (by simpa using h)
    simpa [detectron2_backbone_state_dict] using hf
  exact ⟨hm, fun nv hv => by rw [hm]; exact lookup_map_rename sd h nv hv⟩

/-- Witness for C1 on three representative parameter names: a stem
convolution, a stem batch-norm, and a shortcut convolution. -/
theorem detectron2_state_dict_renames_witness :
    (detectron2_backbone_state_dict
        [("conv1.weight", (0 : Nat)), ("bn1.weight", 1),
         ("layer1.0.downsample.0.weight", 2)]).model
      = [("stem.conv1.weight", 0), ("stem.conv1.norm.weight", 1),
         ("res2.0.shortcut.weight", 2)]
    ∧ ∀ nv ∈ [("conv1.weight", (0 : Nat)), ("bn1.weight", 1),
         ("layer1.0.downsample.0.weight", 2)],
        ((detectron2_backbone_state_dict
            [("conv1.weight", (0 : Nat)), ("bn1.weight", 1),
             ("layer1.0.downsample.0.weight", 2)]).model).lookup (renameD2 nv.1)
          = some nv.2 :=
  have h := detectron2_state_dict_renames
    [("conv1.weight", (0 : Nat)), ("bn1.weight", 1),
     ("layer1.0.downsample.0.weight", 2)] (by decide)
  ⟨h.1.trans (by decide), h.2⟩

/-- Keys grouped into tagged sections are globally distinct when the tags
are distinct, every key carries its section's tag, and keys are distinct
within each section. -/
lemma nodup_sectioned (f : String → List Char) :
    ∀ secs : List (List Char × List String),
      (secs.map Prod.fst).Nodup →
      (∀ p ∈ secs, (∀ x ∈ p.2, f x = p.1) ∧ p.2.Nodup) →
      (secs.map Prod.snd).flatten.Nodup
  | [], _, _ => by simp
  | (t, A) :: rest, htags, hsecs => by
    simp only [List.map_cons, List.flatten_cons]
    rw [List.nodup_append]
    have htc : (t :: rest.map Prod.fst).Nodup := by simpa using htags
    refine ⟨(hsecs (t, A) (by simp)).2,
      nodup_sectioned f rest (List.nodup_cons.mp htc).2
        (fun p hp => hsecs p (by simp [hp])), ?_⟩
    intro x hxA hxR
    rcases List.mem_flatten.mp hxR with ⟨l, hl, hxl⟩
    rcases List.mem_map.mp hl with ⟨p, hp, hpl⟩
    have hfx : f x = t := (hsecs (t, A) (by simp)).1 x hxA
    have hfx2 : f x = p.1 := (hsecs p (by simp [hp])).1 x (by rw [hpl]; exact hxl)
    refine (List.nodup_cons.mp htc).1 ?_
    have hpt : p.1 = t := by rw [← hfx2, hfx]
    exact hpt ▸ List.mem_map.mpr ⟨p, hp, rfl⟩

/-- The five parameters a torchvision `BatchNorm2d` contributes to a state
dict. -/
def bnParamKeys (p : String) : List String :=
  [p ++ ".weight", p ++ ".bias", p ++ ".running_mean", p ++ ".running_var",
   p ++ ".num_batches_tracked"]

/-- The parameters of one torchvision `Bottleneck` block; the downsample
(shortcut) branch exists only in the first block of each layer. -/
def bottleneckKeys (p : String) (downsample : Bool) : List String :=
  [p ++ ".conv1.weight"] ++ bnParamKeys (p ++ ".bn1")
    ++ [p ++ ".conv2.weight"] ++ bnParamKeys (p ++ ".bn2")
    ++ [p ++ ".conv3.weight"] ++ bnParamKeys (p ++ ".bn3")
    ++ (if downsample then [p ++ ".downsample.0.weight"] ++ bnParamKeys (p ++ ".downsample.1")
        else [])

/-- The parameters of residual layer `l` with the given number of blocks. -/
def layerKeys (l blocks : Nat) : List String :=
  (List.range blocks).flatMap (fun b =>
    bottleneckKeys ("layer" ++ toString l ++ "." ++ toString b) (b == 0))

/-- The `state_dict` parameter names of the torchvision `resnet50` backbone
wrapped by `TorchvisionVisualStream` (with `fc` already replaced by the
parameterless `nn.Identity()`): the stem convolution and batch norm, then
layers of 3, 4, 6 and 3 bottleneck blocks.  The torchvision backbone is an
external collaborator of the source module, so its key set is reconstructed
here from the standard ResNet-50 architecture. -/
def resnet50StateDictKeys : List String :=
  ["conv1.weight"] ++ bnParamKeys "bn1"
    ++ layerKeys 1 3 ++ layerKeys 2 4 ++ layerKeys 3 6 ++ layerKeys 4 3

/-- The first seven characters of a renamed key, which identify its stem or
block section. -/
def keyTag (s : String) : List Char := s.data.take 7

/-- The renamed ResNet-50 keys, grouped into their stem/block sections. -/
def resnet50RenamedSections : List (List Char × List String) :=
  [("stem.co".data, ["stem.conv1.weight", "stem.conv1.norm.weight", "stem.conv1.norm.bias", "stem.conv1.norm.running_mean", "stem.conv1.norm.running_var", "stem.conv1.norm.num_batches_tracked"]),
   ("res2.0.".data, ["res2.0.conv1.weight", "res2.0.conv1.norm.weight", "res2.0.conv1.norm.bias", "res2.0.conv1.norm.running_mean", "res2.0.conv1.norm.running_var", "res2.0.conv1.norm.num_batches_tracked", "res2.0.conv2.weight", "res2.0.conv2.norm.weight", "res2.0.conv2.norm.bias", "res2.0.conv2.norm.running_mean", "res2.0.conv2.norm.running_var", "res2.0.conv2.norm.num_batches_tracked", "res2.0.conv3.weight", "res2.0.conv3.norm.weight", "res2.0.conv3.norm.bias", "res2.0.conv3.norm.running_mean", "res2.0.conv3.norm.running_var", "res2.0.conv3.norm.num_batches_tracked", "res2.0.shortcut.weight", "res2.0.shortcut.norm.weight", "res2.0.shortcut.norm.bias", "res2.0.shortcut.norm.running_mean", "res2.0.shortcut.norm.running_var", "res2.0.shortcut.norm.num_batches_tracked"]),
   ("res2.1.".data, ["res2.1.conv1.weight", "res2.1.conv1.norm.weight", "res2.1.conv1.norm.bias", "res2.1.conv1.norm.running_mean", "res2.1.conv1.norm.running_var", "res2.1.conv1.norm.num_batches_tracked", "res2.1.conv2.weight", "res2.1.conv2.norm.weight", "res2.1.conv2.norm.bias", "res2.1.conv2.norm.running_mean", "res2.1.conv2.norm.running_var", "res2.1.conv2.norm.num_batches_tracked", "res2.1.conv3.weight", "res2.1.conv3.norm.weight", "res2.1.conv3.norm.bias", "res2.1.conv3.norm.running_mean", "res2.1.conv3.norm.running_var", "res2.1.conv3.norm.num_batches_tracked"]),
   ("res2.2.".data, ["res2.2.conv1.weight", "res2.2.conv1.norm.weight", "res2.2.conv1.norm.bias", "res2.2.conv1.norm.running_mean", "res2.2.conv1.norm.running_var", "res2.2.conv1.norm.num_batches_tracked", "res2.2.conv2.weight", "res2.2.conv2.norm.weight", "res2.2.conv2.norm.bias", "res2.2.conv2.norm.running_mean", "res2.2.conv2.norm.running_var", "res2.2.conv2.norm.num_batches_tracked", "res2.2.conv3.weight", "res2.2.conv3.norm.weight", "res2.2.conv3.norm.bias", "res2.2.conv3.norm.running_mean", "res2.2.conv3.norm.running_var", "res2.2.conv3.norm.num_batches_tracked"]),
   ("res3.0.".data, ["res3.0.conv1.weight", "res3.0.conv1.norm.weight", "res3.0.conv1.norm.bias", "res3.0.conv1.norm.running_mean", "res3.0.conv1.norm.running_var", "res3.0.conv1.norm.num_batches_tracked", "res3.0.conv2.weight", "res3.0.conv2.norm.weight", "res3.0.conv2.norm.bias", "res3.0.conv2.norm.running_mean", "res3.0.conv2.norm.running_var", "res3.0.conv2.norm.num_batches_tracked", "res3.0.conv3.weight", "res3.0.conv3.norm.weight", "res3.0.conv3.norm.bias", "res3.0.conv3.norm.running_mean", "res3.0.conv3.norm.running_var", "res3.0.conv3.norm.num_batches_tracked", "res3.0.shortcut.weight", "res3.0.shortcut.norm.weight", "res3.0.shortcut.norm.bias", "res3.0.shortcut.norm.running_mean", "res3.0.shortcut.norm.running_var", "res3.0.shortcut.norm.num_batches_tracked"]),
   ("res3.1.".data, ["res3.1.conv1.weight", "res3.1.conv1.norm.weight", "res3.1.conv1.norm.bias", "res3.1.conv1.norm.running_mean", "res3.1.conv1.norm.running_var", "res3.1.conv1.norm.num_batches_tracked", "res3.1.conv2.weight", "res3.1.conv2.norm.weight", "res3.1.conv2.norm.bias", "res3.1.conv2.norm.running_mean", "res3.1.conv2.norm.running_var", "res3.1.conv2.norm.num_batches_tracked", "res3.1.conv3.weight", "res3.1.conv3.norm.weight", "res3.1.conv3.norm.bias", "res3.1.conv3.norm.running_mean", "res3.1.conv3.norm.running_var", "res3.1.conv3.norm.num_batches_tracked"]),
   ("res3.2.".data, ["res3.2.conv1.weight", "res3.2.conv1.norm.weight", "res3.2.conv1.norm.bias", "res3.2.conv1.norm.running_mean", "res3.2.conv1.norm.running_var", "res3.2.conv1.norm.num_batches_tracked", "res3.2.conv2.weight", "res3.2.conv2.norm.weight", "res3.2.conv2.norm.bias", "res3.2.conv2.norm.running_mean", "res3.2.conv2.norm.running_var", "res3.2.conv2.norm.num_batches_tracked", "res3.2.conv3.weight", "res3.2.conv3.norm.weight", "res3.2.conv3.norm.bias", "res3.2.conv3.norm.running_mean", "res3.2.conv3.norm.running_var", "res3.2.conv3.norm.num_batches_tracked"]),
   ("res3.3.".data, ["res3.3.conv1.weight", "res3.3.conv1.norm.weight", "res3.3.conv1.norm.bias", "res3.3.conv1.norm.running_mean", "res3.3.conv1.norm.running_var", "res3.3.conv1.norm.num_batches_tracked", "res3.3.conv2.weight", "res3.3.conv2.norm.weight", "res3.3.conv2.norm.bias", "res3.3.conv2.norm.running_mean", "res3.3.conv2.norm.running_var", "res3.3.conv2.norm.num_batches_tracked", "res3.3.conv3.weight", "res3.3.conv3.norm.weight", "res3.3.conv3.norm.bias", "res3.3.conv3.norm.running_mean", "res3.3.conv3.norm.running_var", "res3.3.conv3.norm.num_batches_tracked"]),
   ("res4.0.".data, ["res4.0.conv1.weight", "res4.0.conv1.norm.weight", "res4.0.conv1.norm.bias", "res4.0.conv1.norm.running_mean", "res4.0.conv1.norm.running_var", "res4.0.conv1.norm.num_batches_tracked", "res4.0.conv2.weight", "res4.0.conv2.norm.weight", "res4.0.conv2.norm.bias", "res4.0.conv2.norm.running_mean", "res4.0.conv2.norm.running_var", "res4.0.conv2.norm.num_batches_tracked", "res4.0.conv3.weight", "res4.0.conv3.norm.weight", "res4.0.conv3.norm.bias", "res4.0.conv3.norm.running_mean", "res4.0.conv3.norm.running_var", "res4.0.conv3.norm.num_batches_tracked", "res4.0.shortcut.weight", "res4.0.shortcut.norm.weight", "res4.0.shortcut.norm.bias", "res4.0.shortcut.norm.running_mean", "res4.0.shortcut.norm.running_var", "res4.0.shortcut.norm.num_batches_tracked"]),
   ("res4.1.".data, ["res4.1.conv1.weight", "res4.1.conv1.norm.weight", "res4.1.conv1.norm.bias", "res4.1.conv1.norm.running_mean", "res4.1.conv1.norm.running_var", "res4.1.conv1.norm.num_batches_tracked", "res4.1.conv2.weight", "res4.1.conv2.norm.weight", "res4.1.conv2.norm.bias", "res4.1.conv2.norm.running_mean", "res4.1.conv2.norm.running_var", "res4.1.conv2.norm.num_batches_tracked", "res4.1.conv3.weight", "res4.1.conv3.norm.weight", "res4.1.conv3.norm.bias", "res4.1.conv3.norm.running_mean", "res4.1.conv3.norm.running_var", "res4.1.conv3.norm.num_batches_tracked"]),
   ("res4.2.".data, ["res4.2.conv1.weight", "res4.2.conv1.norm.weight", "res4.2.conv1.norm.bias", "res4.2.conv1.norm.running_mean", "res4.2.conv1.norm.running_var", "res4.2.conv1.norm.num_batches_tracked", "res4.2.conv2.weight", "res4.2.conv2.norm.weight", "res4.2.conv2.norm.bias", "res4.2.conv2.norm.running_mean", "res4.2.conv2.norm.running_var", "res4.2.conv2.norm.num_batches_tracked", "res4.2.conv3.weight", "res4.2.conv3.norm.weight", "res4.2.conv3.norm.bias", "res4.2.conv3.norm.running_mean", "res4.2.conv3.norm.running_var", "res4.2.conv3.norm.num_batches_tracked"]),
   ("res4.3.".data, ["res4.3.conv1.weight", "res4.3.conv1.norm.weight", "res4.3.conv1.norm.bias", "res4.3.conv1.norm.running_mean", "res4.3.conv1.norm.running_var", "res4.3.conv1.norm.num_batches_tracked", "res4.3.conv2.weight", "res4.3.conv2.norm.weight", "res4.3.conv2.norm.bias", "res4.3.conv2.norm.running_mean", "res4.3.conv2.norm.running_var", "res4.3.conv2.norm.num_batches_tracked", "res4.3.conv3.weight", "res4.3.conv3.norm.weight", "res4.3.conv3.norm.bias", "res4.3.conv3.norm.running_mean", "res4.3.conv3.norm.running_var", "res4.3.conv3.norm.num_batches_tracked"]),
   ("res4.4.".data, ["res4.4.conv1.weight", "res4.4.conv1.norm.weight", "res4.4.conv1.norm.bias", "res4.4.conv1.norm.running_mean", "res4.4.conv1.norm.running_var", "res4.4.conv1.norm.num_batches_tracked", "res4.4.conv2.weight", "res4.4.conv2.norm.weight", "res4.4.conv2.norm.bias", "res4.4.conv2.norm.running_mean", "res4.4.conv2.norm.running_var", "res4.4.conv2.norm.num_batches_tracked", "res4.4.conv3.weight", "res4.4.conv3.norm.weight", "res4.4.conv3.norm.bias", "res4.4.conv3.norm.running_mean", "res4.4.conv3.norm.running_var", "res4.4.conv3.norm.num_batches_tracked"]),
   ("res4.5.".data, ["res4.5.conv1.weight", "res4.5.conv1.norm.weight", "res4.5.conv1.norm.bias", "res4.5.conv1.norm.running_mean", "res4.5.conv1.norm.running_var", "res4.5.conv1.norm.num_batches_tracked", "res4.5.conv2.weight", "res4.5.conv2.norm.weight", "res4.5.conv2.norm.bias", "res4.5.conv2.norm.running_mean", "res4.5.conv2.norm.running_var", "res4.5.conv2.norm.num_batches_tracked", "res4.5.conv3.weight", "res4.5.conv3.norm.weight", "res4.5.conv3.norm.bias", "res4.5.conv3.norm.running_mean", "res4.5.conv3.norm.running_var", "res4.5.conv3.norm.num_batches_tracked"]),
   ("res5.0.".data, ["res5.0.conv1.weight", "res5.0.conv1.norm.weight", "res5.0.conv1.norm.bias", "res5.0.conv1.norm.running_mean", "res5.0.conv1.norm.running_var", "res5.0.conv1.norm.num_batches_tracked", "res5.0.conv2.weight", "res5.0.conv2.norm.weight", "res5.0.conv2.norm.bias", "res5.0.conv2.norm.running_mean", "res5.0.conv2.norm.running_var", "res5.0.conv2.norm.num_batches_tracked", "res5.0.conv3.weight", "res5.0.conv3.norm.weight", "res5.0.conv3.norm.bias", "res5.0.conv3.norm.running_mean", "res5.0.conv3.norm.running_var", "res5.0.conv3.norm.num_batches_tracked", "res5.0.shortcut.weight", "res5.0.shortcut.norm.weight", "res5.0.shortcut.norm.bias", "res5.0.shortcut.norm.running_mean", "res5.0.shortcut.norm.running_var", "res5.0.shortcut.norm.num_batches_tracked"]),
   ("res5.1.".data, ["res5.1.conv1.weight", "res5.1.conv1.norm.weight", "res5.1.conv1.norm.bias", "res5.1.conv1.norm.running_mean", "res5.1.conv1.norm.running_var", "res5.1.conv1.norm.num_batches_tracked", "res5.1.conv2.weight", "res5.1.conv2.norm.weight", "res5.1.conv2.norm.bias", "res5.1.conv2.norm.running_mean", "res5.1.conv2.norm.running_var", "res5.1.conv2.norm.num_batches_tracked", "res5.1.conv3.weight", "res5.1.conv3.norm.weight", "res5.1.conv3.norm.bias", "res5.1.conv3.norm.running_mean", "res5.1.conv3.norm.running_var", "res5.1.conv3.norm.num_batches_tracked"]),
   ("res5.2.".data, ["res5.2.conv1.weight", "res5.2.conv1.norm.weight", "res5.2.conv1.norm.bias", "res5.2.conv1.norm.running_mean", "res5.2.conv1.norm.running_var", "res5.2.conv1.norm.num_batches_tracked", "res5.2.conv2.weight", "res5.2.conv2.norm.weight", "res5.2.conv2.norm.bias", "res5.2.conv2.norm.running_mean", "res5.2.conv2.norm.running_var", "res5.2.conv2.norm.num_batches_tracked", "res5.2.conv3.weight", "res5.2.conv3.norm.weight", "res5.2.conv3.norm.bias", "res5.2.conv3.norm.running_mean", "res5.2.conv3.norm.running_var", "res5.2.conv3.norm.num_batches_tracked"])]

set_option maxHeartbeats 4000000 in
/-- The detectron2 renaming keeps all 318 ResNet-50 parameter names
distinct. -/
lemma resnet50_renamed_nodup : (resnet50StateDictKeys.map renameD2).Nodup := by
  have htags : (resnet50RenamedSections.map Prod.fst).Nodup := by decide
  have hsecs : ∀ p ∈ resnet50RenamedSections,
      (∀ x ∈ p.2, keyTag x = p.1) ∧ p.2.Nodup := by decide
  have hflat : (resnet50RenamedSections.map Prod.snd).flatten
      = resnet50StateDictKeys.map renameD2 := by decide
  have hnd := nodup_sectioned keyTag resnet50RenamedSections htags hsecs
  rwa [hflat] at hnd

set_option maxHeartbeats 4000000 in
/-- C10: the renaming is injective on the wrapped ResNet-50 backbone's
parameter names, so the `"model"` dict returned by
`detectron2_backbone_state_dict` has exactly as many entries as
`self.cnn.state_dict()`, whatever the parameter tensors are. -/
theorem detectron2_rename_injective_resnet50 (π : Type) (f : String → π) :
    (resnet50StateDictKeys.map renameD2).Nodup
    ∧ (detectron2_backbone_state_dict
        (resnet50StateDictKeys.map (fun k => (k, f k)))).model.length
      = (resnet50StateDictKeys.map (fun k => (k, f k))).length := by
  refine ⟨resnet50_renamed_nodup, ?_⟩
  have hfun : ((fun nv : String × π => renameD2 nv.1) ∘ fun k => (k, f k))
      = renameD2 := funext (fun k => rfl)
  have hcomp : ((resnet50StateDictKeys.map (fun k => (k, f k))).map
      (fun nv => renameD2 nv.1)) = resnet50StateDictKeys.map renameD2 := by
    rw [List.map_map, hfun]
  have hyp : ((([] : List (String × π)).map Prod.fst)
      ++ (resnet50StateDictKeys.map (fun k => (k, f k))).map
          (fun nv => renameD2 nv.1)).Nodup := by
    rw [hcomp]
    simpa using resnet50_renamed_nodup
  have hf := foldl_renameInsert (resnet50StateDictKeys.map (fun k => (k, f k))) [] hyp
  rw [detectron2_model_def, hf]
  simp

/-- C9: with `pretrained=False` and a name outside `MODEL_NAME_TO_CFG_PATH`,
`__init__` raises the table subscript's `KeyError` before any file is
opened — the `except` clause catches only `FileNotFoundError`, so no
`RuntimeError` is raised — and the config file is not modified. -/
theorem d2_init_unknown_name_keyerror (name : String) (vfs : Nat)
    (file : Option String)
    (ctor : Option String → Except ε (List (String × (T → T)) × (T → T)))
    (h : MODEL_NAME_TO_CFG_PATH.lookup name = none) :
    D2BackboneVisualStream.init name vfs false file ctor
      = (Except.error D2Error.keyError, file) := by
  simp [D2BackboneVisualStream.init, d2Init, h]

/-- Witness for C9: the torchvision-style name `resnet50` is not a
detectron2 model-zoo name; the file is untouched and the error is the
`KeyError`. -/
theorem d2_init_unknown_name_keyerror_witness :
    D2BackboneVisualStream.init "resnet50" 2048 false (some "MODEL:\n")
      (fun _ => (Except.ok ([("stem", fun (x : Nat) => x + 1)], fun x => x) :
        Except Nat (List (String × (Nat → Nat)) × (Nat → Nat))))
      = (Except.error D2Error.keyError, some "MODEL:\n") :=
  d2_init_unknown_name_keyerror "resnet50" 2048 (some "MODEL:\n") _ (by decide)

/-- String equality from character-list equality. -/
lemma str_eq_of_data {s t : String} (h : s.data = t.data) : s = t := String.ext h

/-- String-level version of `replace_decomp`: replacing the unique
occurrence of `w` in `A ++ w ++ B`. -/
lemma pyReplaceS_decomp (A B w r : String) (hw : w.data ≠ [])
    (h1 : ∀ i, i < A.data.length →
      w.data.isPrefixOf ((A.data ++ (w.data ++ B.data)).drop i) = false)
    (h2 : countOcc w.data B.data = 0) :
    pyReplaceS (A ++ w ++ B) w r = A ++ r ++ B := by
  apply str_eq_of_data
  show replAux w.data r.data (A ++ w ++ B).data 0 = (A ++ r ++ B).data
  have hd : (A ++ w ++ B).data = A.data ++ (w.data ++ B.data) := by
    simp [String.data_append]
  have hd2 : (A ++ r ++ B).data = A.data ++ (r.data ++ B.data) := by
    simp [String.data_append]
  rw [hd, hd2, replace_decomp w.data r.data hw A.data B.data h1 h2]

/-- C2: with `pretrained=False` and a known name, `__init__` patches the
config file — the `WEIGHTS` value found by the regex search becomes the
empty string — before invoking the external constructor, restores the
original value afterwards whether the constructor succeeds or raises, and
re-raises the constructor's exception; in both cases the file ends exactly
as it began.  The hypotheses state that the config holds one
`WEIGHTS: "w"` line, that `w` occurs nowhere else in it, and that
`WEIGHTS: ""` occurs nowhere else — true of the detectron2 model-zoo
configs (one nonempty `WEIGHTS:` line each). -/
theorem d2_init_patches_and_restores_config (name : String) (vfs : Nat)
    (A w B : String) {T ε : Type}
    (ctor : Option String → Except ε (List (String × (T → T)) × (T → T)))
    (htab : (MODEL_NAME_TO_CFG_PATH.lookup name).isSome = true)
    (hw : w.data ≠ [])
    (hsearch : searchWeightsS (A ++ "WEIGHTS: \"" ++ w ++ "\"\n" ++ B) = some w)
    (h1 : ∀ i, i < (A ++ "WEIGHTS: \"").data.length →
      w.data.isPrefixOf (((A ++ "WEIGHTS: \"").data
        ++ (w.data ++ ("\"\n" ++ B).data)).drop i) = false)
    (h2 : countOcc w.data ("\"\n" ++ B).data = 0)
    (h3 : ∀ i, i < A.data.length →
      ("WEIGHTS: \"\"" : String).data.isPrefixOf ((A.data
        ++ (("WEIGHTS: \"\"" : String).data ++ ("\n" ++ B).data)).drop i) = false)
    (h4 : countOcc ("WEIGHTS: \"\"" : String).data ("\n" ++ B).data = 0) :
    D2BackboneVisualStream.init name vfs false
        (some (A ++ "WEIGHTS: \"" ++ w ++ "\"\n" ++ B)) ctor
      = (match ctor (some (A ++ "WEIGHTS: \"\"" ++ ("\n" ++ B))) with
         | Except.ok p => Except.ok (mkD2Module vfs p)
         | Except.error e => Except.error (D2Error.ctorError e),
         some (A ++ "WEIGHTS: \"" ++ w ++ "\"\n" ++ B)) := by
  have hsplit : A ++ "WEIGHTS: \"" ++ w ++ "\"\n" ++ B
      = (A ++ "WEIGHTS: \"") ++ w ++ ("\"\n" ++ B) := by
    rw [String.append_assoc]
  have hpatch : pyReplaceS (A ++ "WEIGHTS: \"" ++ w ++ "\"\n" ++ B) w ""
      = A ++ "WEIGHTS: \"\"" ++ ("\n" ++ B) := by
    rw [hsplit, pyReplaceS_decomp (A ++ "WEIGHTS: \"") ("\"\n" ++ B) w "" hw h1 h2]
    apply str_eq_of_data
    simp [String.data_append]
  have hrestore : pyReplaceS (A ++ "WEIGHTS: \"\"" ++ ("\n" ++ B)) "WEIGHTS: \"\""
      ("WEIGHTS: \"" ++ w ++ "\"")
      = A ++ "WEIGHTS: \"" ++ w ++ "\"\n" ++ B := by
    rw [pyReplaceS_decomp A ("\n" ++ B) "WEIGHTS: \"\"" ("WEIGHTS: \"" ++ w ++ "\"")
      (by decide) h3 h4]
    apply str_eq_of_data
    simp [String.data_append]
  unfold D2BackboneVisualStream.init d2Init
  simp only [htab, Bool.false_eq_true, if_false, if_true, hsearch, hpatch, hrestore]
  cases hc : ctor (some (A ++ "WEIGHTS: \"\"" ++ ("\n" ++ B))) with
  | ok p => simp [d2CtorPhase, hc]
  | error e => simp [d2CtorPhase, hc]

/-- Witness for C2 on a concrete config and a raising constructor: the
constructor sees the patched file (`WEIGHTS: ""`), its exception is
re-raised, and the file is byte-for-byte restored. -/
theorem d2_init_patches_and_restores_config_witness :
    D2BackboneVisualStream.init "coco_faster_rcnn_R_50_C4" 2048 false
        (some ("MODEL:\n  " ++ "WEIGHTS: \"" ++ "model.pkl" ++ "\"\n"
          ++ "  MASK_ON: False\n"))
        (fun _ => (Except.error 42 :
          Except Nat (List (String × (Nat → Nat)) × (Nat → Nat))))
      = (Except.error (D2Error.ctorError 42),
         some ("MODEL:\n  " ++ "WEIGHTS: \"" ++ "model.pkl" ++ "\"\n"
          ++ "  MASK_ON: False\n")) :=
  d2_init_patches_and_restores_config "coco_faster_rcnn_R_50_C4" 2048
    "MODEL:\n  " "model.pkl" "  MASK_ON: False\n"
    (fun _ => (Except.error 42 :
      Except Nat (List (String × (Nat → Nat)) × (Nat → Nat))))
    (by decide) (by decide) (by decide) (by decide) (by decide) (by decide) (by decide)
